import Mathlib

/-!
Shallow embedding of the WeChat mini-program chat page controller
(`miniprogram/pages/chat/index.js`) of the GZPearlAgent repository.

The page holds `data = { user_id, session_id, messages, input }` and has
two relevant handlers:

* `sendMsg()` — if `input.trim()` is falsy it returns; otherwise it
  synchronously appends `{role: 'user', content: input}` to `messages`,
  clears `input`, and issues one `wx.request` POST whose body is
  `{question: input, user_id, session_id}`, with a `success` callback
  appending `{role: 'assistant', content: res.data.answer}` and a nullary
  `fail` callback appending `{role: 'assistant', content: '网络错误，请稍后重试。'}`.
* `onLoad()` — reads `wx.getStorageSync('user_id')`; if falsy, generates
  `'user_' + Math.random().toString(36).slice(2)` and writes it with
  `wx.setStorageSync`, with no try/catch anywhere.

The embedding is pure: the synchronous part of `sendMsg` is a function
from page data to the new page data plus the optional outbound request;
the asynchronous resolution of that request is a separate `settle`
function applying the registered callback to the page data current at
callback time. JavaScript's possibly-undefined field access
`res.data.answer` is modelled by `JsVal` (a string or `undefined`).
-/

/-- A JavaScript value as it can appear in a message's `content` field:
either a string or `undefined` (the result of reading an absent field). -/
inductive JsVal where
  | str (s : String)
  | undef
  deriving DecidableEq

/-- The role tag of a chat message, `'user'` or `'assistant'` in the source. -/
inductive Role where
  | user
  | assistant
  deriving DecidableEq

/-- A chat message `{role, content}` as built by the page controller. -/
structure Message where
  role : Role
  content : JsVal
  deriving DecidableEq

/-- The page state `data = { user_id, session_id, messages, input }`. -/
structure ChatData where
  user_id : String
  session_id : String
  messages : List Message
  input : String
  deriving DecidableEq

/-- The body of the outbound `wx.request` POST:
`data: { question: input, user_id, session_id }`. -/
structure ChatRequest where
  question : String
  user_id : String
  session_id : String
  deriving DecidableEq

/-- The response body as consumed by the `success` callback: only the
`answer` field is read, and reading it on a body without that field
yields `undefined`, hence `JsVal`. -/
structure ResBody where
  answer : JsVal
  deriving DecidableEq

/-- The fixed failure string appended by the `fail` callback. -/
def failText : String := "网络错误，请稍后重试。"

/-- Whether a code point belongs to ECMA-262 WhiteSpace or LineTerminator,
the set removed by JavaScript `String.prototype.trim`: TAB, LF, VT, FF, CR,
SP, NBSP, the Unicode Zs space separators, LS, PS and ZWNBSP. -/
def jsIsWhite (c : Char) : Bool :=
  c.toNat = 9 || c.toNat = 10 || c.toNat = 11 || c.toNat = 12 || c.toNat = 13 ||
    c.toNat = 32 || c.toNat = 160 || c.toNat = 5760 ||
    (8192 ≤ c.toNat && c.toNat ≤ 8202) || c.toNat = 8232 || c.toNat = 8233 ||
    c.toNat = 8239 || c.toNat = 8287 || c.toNat = 12288 || c.toNat = 65279

/-- JavaScript `String.prototype.trim`: removes leading and trailing
whitespace and line terminators. -/
def jsTrim (s : String) : String :=
  String.mk (((s.data.dropWhile jsIsWhite).reverse.dropWhile jsIsWhite).reverse)

/-- The synchronous part of `sendMsg()`: the guard `if (!input.trim()) return;`
(JavaScript `!s` holds exactly when the trimmed string is empty), then the
`setData` appending the user message and clearing `input`, and the issuing
of the single request. The returned `Option ChatRequest` is the outbound
request: `none` when the guard fired, `some` of the request body otherwise.
Everything in the returned `ChatData` happens before any network
resolution. -/
def sendMsg (d : ChatData) : ChatData × Option ChatRequest :=
  if jsTrim d.input = "" then
    (d, none)
  else
    ({ d with
        messages := d.messages ++ [⟨Role.user, JsVal.str d.input⟩],
        input := "" },
     some ⟨d.input, d.user_id, d.session_id⟩)

/-- The `success` callback of the request: appends
`{role: 'assistant', content: res.data.answer}` to the messages current
at callback time. -/
def onSuccess (body : ResBody) (d : ChatData) : ChatData :=
  { d with messages := d.messages ++ [⟨Role.assistant, body.answer⟩] }

/-- The `fail` callback of the request: a nullary closure (it receives no
information about the failure) appending the fixed failure string. -/
def onFail (d : ChatData) : ChatData :=
  { d with messages := d.messages ++ [⟨Role.assistant, JsVal.str failText⟩] }

/-- The kinds of request failure named by the external interface contract:
the transport (`wx.request`) reports every such outcome through the single
`fail` callback, which is how the spec's external-interface section
describes the consumed contract. -/
inductive FailureKind where
  | networkError
  | timeout
  | nonSuccessStatus
  deriving DecidableEq

/-- The final outcome of the issued request: a response body delivered to
the `success` callback, or a failure delivered to the `fail` callback. -/
inductive Outcome where
  | ok (body : ResBody)
  | failed (k : FailureKind)
  deriving DecidableEq

/-- Resolution of the request: dispatches the outcome to the callback the
source registered for it. This is the only state change after the
synchronous part of `sendMsg`; it issues no further request. -/
def settle (o : Outcome) (d : ChatData) : ChatData :=
  match o with
  | Outcome.ok body => onSuccess body d
  | Outcome.failed _ => onFail d

/-- The environment of the user-id resolution in `onLoad`: the durable
value stored under the key `'user_id'` (`none` when absent), together
with whether the platform storage read and write succeed; the
synchronous wx storage APIs signal failure by throwing. -/
structure Store where
  val : Option String
  getOk : Bool
  setOk : Bool
  deriving DecidableEq

/-- The user-id resolution portion of `onLoad()` (lines 13–17 of the
source): `wx.getStorageSync('user_id')` returns the empty string when the
key is absent; if the result is falsy a fresh id `'user_' ++ fresh` is
generated and written with `wx.setStorageSync`. The source wraps none of
this in try/catch, so a throwing storage call aborts the whole operation,
which the embedding renders as `Except.error ()`. On success the result
carries the resolved id, the storage after the call, and whether a write
was performed. -/
def resolveUserId (fresh : String) (st : Store) : Except Unit (String × Store × Bool) :=
  if st.getOk then
    let v := st.val.getD ""
    if v = "" then
      let u := "user_" ++ fresh
      if st.setOk then
        Except.ok (u, { st with val := some u }, true)
      else
        Except.error ()
    else
      Except.ok (v, st, false)
  else
    Except.error ()

/-- C1: for every draft whose trimmed form is non-empty, the synchronous
part of `sendMsg` appends exactly one user message carrying the original
untrimmed draft and clears the draft, before any network resolution (the
returned state is the pre-resolution state; `settle` acts only later). -/
theorem sendMsg_appends_user_and_clears (d : ChatData)
    (h : ¬ jsTrim d.input = "") :
    (sendMsg d).1 =
      { d with
          messages := d.messages ++ [⟨Role.user, JsVal.str d.input⟩],
          input := "" } := by
  simp [sendMsg, h]

/-- Witness for C1 at a concrete state with draft `"hi"`. -/
theorem sendMsg_appends_user_and_clears_witness :
    (¬ jsTrim (⟨"u", "s", [], "hi"⟩ : ChatData).input = "") ∧
      (sendMsg ⟨"u", "s", [], "hi"⟩).1 =
        { (⟨"u", "s", [], "hi"⟩ : ChatData) with
            messages := [] ++ [⟨Role.user, JsVal.str "hi"⟩],
            input := "" } :=
  ⟨by decide, sendMsg_appends_user_and_clears ⟨"u", "s", [], "hi"⟩ (by decide)⟩

/-- C2: for every draft consisting only of whitespace (including the empty
string), `sendMsg` is a no-op: the state (messages and draft alike) is
unchanged and no request is issued. -/
theorem sendMsg_blank_noop (d : ChatData)
    (h : jsTrim d.input = "") :
    sendMsg d = (d, none) := by
  simp [sendMsg, h]

/-- Witness for C2 at a concrete state with a spaces-only draft. -/
theorem sendMsg_blank_noop_witness :
    (jsTrim (⟨"u", "s", [], "   "⟩ : ChatData).input = "") ∧
      sendMsg ⟨"u", "s", [], "   "⟩ = (⟨"u", "s", [], "   "⟩, none) :=
  ⟨by decide, sendMsg_blank_noop ⟨"u", "s", [], "   "⟩ (by decide)⟩

/-- C3: when the issued request succeeds with body `{answer: ans}`, the
success callback appends exactly one assistant message with content `ans`,
positioned directly after the corresponding user message. -/
theorem success_appends_assistant_after_user (d : ChatData) (ans : String)
    (h : ¬ jsTrim d.input = "") :
    (settle (Outcome.ok ⟨JsVal.str ans⟩) (sendMsg d).1).messages =
      d.messages ++ [⟨Role.user, JsVal.str d.input⟩, ⟨Role.assistant, JsVal.str ans⟩] := by
  simp [sendMsg, h, settle, onSuccess]

/-- Witness for C3 at a concrete state and answer. -/
theorem success_appends_assistant_after_user_witness :
    (¬ jsTrim (⟨"u", "s", [], "q"⟩ : ChatData).input = "") ∧
      (settle (Outcome.ok ⟨JsVal.str "a"⟩) (sendMsg ⟨"u", "s", [], "q"⟩).1).messages =
        [] ++ [⟨Role.user, JsVal.str "q"⟩, ⟨Role.assistant, JsVal.str "a"⟩] :=
  ⟨by decide, success_appends_assistant_after_user ⟨"u", "s", [], "q"⟩ "a" (by decide)⟩

/-- C4: every failure outcome, whatever its kind (network error, timeout,
non-success status), is handled identically: the right-hand side below does
not depend on the kind, and the appended message is the fixed failure
string. The uniformity is forced by the source: the registered `fail`
callback is nullary, so it cannot distinguish failure kinds. -/
theorem failure_handled_uniformly (k : FailureKind) (d : ChatData) :
    settle (Outcome.failed k) d =
      { d with messages := d.messages ++ [⟨Role.assistant, JsVal.str failText⟩] } := by
  cases k <;> rfl

/-- C5: a transport failure never escapes as an error: `settle` on a failed
outcome is a total function into `ChatData`, and the failure is converted
into an ordinary assistant-role message whose content is the fixed
localized failure string, appended to the transcript. -/
theorem failure_converted_to_message (k : FailureKind) (d : ChatData) :
    ∃ m : Message,
      settle (Outcome.failed k) d = { d with messages := d.messages ++ [m] } ∧
        m.role = Role.assistant ∧ m.content = JsVal.str failText :=
  ⟨⟨Role.assistant, JsVal.str failText⟩, rfl, rfl, rfl⟩

/-- C8: every `sendMsg` on a non-blank draft issues exactly one outbound
request, whose body carries the draft value prior to clearing together
with the current user and session identifiers; `settle` (the only other
transition) returns no request, so none is ever retried. -/
theorem sendMsg_issues_one_request (d : ChatData)
    (h : ¬ jsTrim d.input = "") :
    (sendMsg d).2 = some ⟨d.input, d.user_id, d.session_id⟩ := by
  simp [sendMsg, h]

/-- Witness for C8 at a concrete state. -/
theorem sendMsg_issues_one_request_witness :
    (¬ jsTrim (⟨"u", "s", [], "q"⟩ : ChatData).input = "") ∧
      (sendMsg ⟨"u", "s", [], "q"⟩).2 = some ⟨"q", "u", "s"⟩ :=
  ⟨by decide, sendMsg_issues_one_request ⟨"u", "s", [], "q"⟩ (by decide)⟩

/-- C9: the transcript is append-only: the synchronous part of `sendMsg`
either leaves `messages` unchanged or appends exactly one message at the
end, and every settlement (success or failure callback) appends exactly
one message at the end; existing messages are never modified, removed or
reordered. -/
theorem messages_append_only (d : ChatData) (o : Outcome) :
    ((sendMsg d).1.messages = d.messages ∨
      (sendMsg d).1.messages = d.messages ++ [⟨Role.user, JsVal.str d.input⟩]) ∧
      (∃ m : Message, (settle o d).messages = d.messages ++ [m]) := by
  constructor
  · by_cases h : jsTrim d.input = ""
    · exact Or.inl (by simp [sendMsg, h])
    · exact Or.inr (by simp [sendMsg, h])
  · cases o with
    | ok body => exact ⟨⟨Role.assistant, body.answer⟩, rfl⟩
    | failed k => exact ⟨⟨Role.assistant, JsVal.str failText⟩, rfl⟩

/-- C10: a success response whose body lacks the `answer` string field
still goes through the success callback: the appended assistant message
carries the undefined value, and the fixed failure string is not used
(the handler fails open, not closed). -/
theorem missing_answer_fails_open (d : ChatData) :
    settle (Outcome.ok ⟨JsVal.undef⟩) d =
      { d with messages := d.messages ++ [⟨Role.assistant, JsVal.undef⟩] } ∧
      JsVal.undef ≠ JsVal.str failText :=
  ⟨rfl, by decide⟩

/-- A generated identifier `"user_" ++ f` is never the empty string. -/
theorem user_pre_ne_empty (f : String) : "user_" ++ f ≠ "" := by
  obtain ⟨l⟩ := f
  intro h
  have h2 : ('u' :: 's' :: 'e' :: 'r' :: '_' :: l) = ([] : List Char) := congrArg String.data h
  simp at h2

/-- C6: user-id resolution is idempotent over intact storage. Whenever a
resolution succeeds with value `u`, a second call on the resulting storage
returns the same `u` and performs no write; a write happens at most on the
first call, and only when the key was absent (the stored value defaulted
to the empty string); and when a user id is already stored, the call
returns exactly that stored value with no write and no storage change. -/
theorem resolveUserId_idempotent (f₁ f₂ u : String) (st st' : Store) (w : Bool)
    (h : resolveUserId f₁ st = Except.ok (u, st', w)) :
    resolveUserId f₂ st' = Except.ok (u, st', false) ∧
      (w = true → st.val.getD "" = "") ∧
      (st.val.getD "" ≠ "" → st' = st ∧ w = false ∧ u = st.val.getD "") := by
  by_cases hg : st.getOk = true
  · by_cases hv : st.val.getD "" = ""
    · by_cases hs : st.setOk = true
      · simp [resolveUserId, hg, hv, hs] at h
        obtain ⟨h1, h2, h3⟩ := h
        subst h1
        subst h2
        subst h3
        refine ⟨?_, fun _ => hv, fun hne => absurd hv hne⟩
        simp [resolveUserId, user_pre_ne_empty f₁]
      · simp [resolveUserId, hg, hv, hs] at h
    · simp [resolveUserId, hg, hv] at h
      obtain ⟨h1, h2, h3⟩ := h
      subst h1
      subst h2
      subst h3
      refine ⟨?_, fun hw => absurd hw (by simp), fun _ => ⟨rfl, rfl, rfl⟩⟩
      simp [resolveUserId, hg, hv]
  · simp [resolveUserId, hg] at h

/-- Witness for C6: a storage already holding the id `"uid"`. -/
theorem resolveUserId_idempotent_witness :
    resolveUserId "f1" ⟨some "uid", true, true⟩ =
        Except.ok ("uid", ⟨some "uid", true, true⟩, false) ∧
      (resolveUserId "f2" ⟨some "uid", true, true⟩ =
          Except.ok ("uid", ⟨some "uid", true, true⟩, false) ∧
        (false = true → (⟨some "uid", true, true⟩ : Store).val.getD "" = "") ∧
        ((⟨some "uid", true, true⟩ : Store).val.getD "" ≠ "" →
          (⟨some "uid", true, true⟩ : Store) = ⟨some "uid", true, true⟩ ∧
            false = false ∧ "uid" = (⟨some "uid", true, true⟩ : Store).val.getD "")) :=
  ⟨rfl, resolveUserId_idempotent "f1" "f2" "uid" ⟨some "uid", true, true⟩
    ⟨some "uid", true, true⟩ false rfl⟩

/-- C7 counterexample: at a concrete storage whose write fails with the
key absent, user-id resolution does not fall back to an in-memory-only
identifier; the error propagates and the operation aborts, contrary to
the claimed graceful fallback. -/
theorem resolveUserId_no_fallback_counterexample :
    resolveUserId "abc" ⟨none, true, false⟩ = Except.error () := rfl

/-- C7 (amended): a storage-layer failure encountered during user-id
resolution — the read throwing, or the write throwing after the key was
found absent — propagates out of the operation (no in-memory fallback is
produced), because the source wraps the storage calls in no try/catch. -/
theorem resolveUserId_failure_propagates (fresh : String) (st : Store)
    (h : st.getOk = false ∨ (st.val.getD "" = "" ∧ st.setOk = false)) :
    resolveUserId fresh st = Except.error () := by
  rcases h with hg | ⟨hv, hs⟩
  · simp [resolveUserId, hg]
  · by_cases hg : st.getOk = true
    · simp [resolveUserId, hg, hv, hs]
    · simp [resolveUserId, hg]

/-- Witness for the amended C7 at a storage whose read fails. -/
theorem resolveUserId_failure_propagates_witness :
    ((⟨some "uid", false, true⟩ : Store).getOk = false ∨
      ((⟨some "uid", false, true⟩ : Store).val.getD "" = "" ∧
        (⟨some "uid", false, true⟩ : Store).setOk = false)) ∧
      resolveUserId "z" ⟨some "uid", false, true⟩ = Except.error () :=
  ⟨Or.inl rfl,
    resolveUserId_failure_propagates "z" ⟨some "uid", false, true⟩ (Or.inl rfl)⟩
